import Mathlib

/-!
# Verification of the monday-mcp subitem link-propagation service

Shallow embedding of the webhook relay:
* `src/config.ts` — the `Config` structure and the concrete `sourceConfig`;
* `src/monday-client.ts` — the retrying GraphQL wrapper `mondayQuery`
  (modelled by `attemptResult` / `retryFrom`), the relation-column parser
  `parseLinkedItemIds`, and the read-path post-processing
  `extractMainItemLinkedIds` of `getMainItemLinkedIds`;
* the webhook handler (the variant with the dual board acceptance and the
  parent-resolution fallback chain) — `handleWebhookEvent`, with the per-item
  reconciliation loop split into `processMainItem` / `processItems`.

Remote I/O is abstracted by a `RemoteEnv` of oracles giving each logical
remote call's outcome (after the retry layer), and every remote call the
handler performs is recorded in a `RemoteOp` trace so frame conditions
("zero remote writes") are provable.  Machine numbers (ids) are modelled as
`Int`; JS `||` truthiness on optional numeric fields is modelled explicitly
(`jsOrNum`, `truthyNum`).  JSON parsing of relation-column values is modelled
by `RawJson`: either an unparseable text (`JSON.parse` throws, caught by the
source) or a parsed `Json` tree.
-/

namespace MondayMcp

/-- Errors thrown by remote calls, modelled by their message strings. -/
abbrev Err := String

/-! ## Configuration (src/config.ts) -/

structure Boards where
  subitem : Int
  feature : Int
  main : Int
deriving DecidableEq

structure Columns where
  subitemToMain : String
  mainToFeature : String
deriving DecidableEq

structure RetryConfig where
  maxAttempts : Nat
  baseDelayMs : Nat
  maxDelayMs : Nat
deriving DecidableEq

structure Config where
  boards : Boards
  columns : Columns
  dryRun : Bool
  retry : RetryConfig
deriving DecidableEq

/-- The concrete configuration constants of `src/config.ts` (the `dryRun`
flag comes from the environment, so it stays a parameter). -/
def sourceConfig (dryRun : Bool) : Config where
  boards := { subitem := 18041802160, feature := 18041801957, main := 18012438587 }
  columns := { subitemToMain := "board_relation_mkw4vrjt"
               mainToFeature := "board_relation_mkw8vvdh" }
  dryRun := dryRun
  retry := { maxAttempts := 3, baseDelayMs := 1000, maxDelayMs := 10000 }

/-! ## JS truthiness helpers

The handler uses `a || b` on optional numeric fields and `a && b` guards;
in JS a numeric field is falsy exactly when it is absent or `0`. -/

/-- JS `a || b` for an optional numeric field. -/
def jsOrNum (a : Option Int) (b : Int) : Int :=
  match a with
  | some n => if n = 0 then b else n
  | none => b

/-- JS truthiness of an optional numeric field. -/
def truthyNum (a : Option Int) : Bool :=
  match a with
  | some n => n != 0
  | none => false

/-! ## JSON values and raw relation-column wire values -/

inductive Json where
  | null
  | bool (b : Bool)
  | num (n : Int)
  | str (s : String)
  | arr (elems : List Json)
  | obj (fields : List (String × Json))

/-- JS member access `j.k`: `some` when `j` is an object with field `k`
(first binding wins), `none` for JS `undefined`. -/
def Json.getField : Json → String → Option Json
  | .obj fields, k => (fields.find? (fun f => f.1 = k)).map (fun f => f.2)
  | _, _ => none

/-- A relation-column wire value handed to `JSON.parse`: either text the
parse rejects (the source catches the exception) or a parsed JSON value. -/
inductive RawJson where
  | malformed
  | val (j : Json)

/-- `item.linkedPulseId` on one element of a `linkedPulseIds` array.  The
source's typed `.map` reads a numeric field; a malformed element would give
JS `undefined`, modelled here by the sentinel `0` (no claim exercises
element-level malformation). -/
def elemLinkedPulseId (e : Json) : Int :=
  match e.getField "linkedPulseId" with
  | some (.num n) => n
  | _ => 0

/-! ## monday-client.ts: retrying GraphQL wrapper -/

structure GraphQLError where
  message : String
deriving DecidableEq

structure GraphQLResponse (T : Type) where
  data : Option T
  errors : Option (List GraphQLError)

/-- Outcome of one transport-level attempt inside `mondayQuery`. -/
inductive AttemptOutcome (T : Type) where
  | transportError (msg : String)
  | httpError (status : Nat) (statusText : String)
  | response (r : GraphQLResponse T)

/-- One attempt's result, per the body of the `for` loop of `mondayQuery`:
non-OK transport status, an application-level error list, or a missing
`data` payload each count as a failure even under HTTP success. -/
def attemptResult {T : Type} : AttemptOutcome T → Except Err T
  | .transportError msg => .error msg
  | .httpError status statusText =>
      .error ("HTTP " ++ toString status ++ ": " ++ statusText)
  | .response r =>
      if 0 < (r.errors.getD []).length then
        .error ("GraphQL errors: " ++
          String.intercalate ", " (((r.errors.getD []).map (fun e => e.message))))
      else
        match r.data with
        | some d => .ok d
        | none => .error "No data in response"

/-- The retry loop of `mondayQuery`: attempts numbered from `attempt`, with
`remaining` attempts left; tracks `lastError` and rethrows it when the
budget is exhausted.  Returns the result together with the number of
attempts actually made. -/
def retryFrom {T : Type} (op : Nat → AttemptOutcome T) :
    Nat → Nat → Option Err → Except Err T × Nat
  | attempt, 0, lastError =>
      (.error (lastError.getD "Unknown error during API call"), attempt - 1)
  | attempt, remaining + 1, _lastError =>
      match attemptResult (op attempt) with
      | .ok v => (.ok v, attempt)
      | .error e => retryFrom op (attempt + 1) remaining (some e)

/-- `mondayQuery` with attempt outcomes given by the oracle `op`
(attempt numbers start at 1, as in the source's `for` loop); the backoff
delays do not affect the result and are not modelled. -/
def mondayQuery {T : Type} (maxAttempts : Nat) (op : Nat → AttemptOutcome T) :
    Except Err T × Nat :=
  retryFrom op 1 maxAttempts none

/-! ## monday-client.ts: relation-column parsing and the read path -/

/-- `parseLinkedItemIds` of `src/monday-client.ts`: total, fail-open to `[]`.
The `| _ => []` arms embed the source's falsy / non-array guard and its
`catch` branch. -/
def parseLinkedItemIds (columnValue : Option RawJson) : List Int :=
  match columnValue with
  | none => []
  | some .malformed => []
  | some (.val j) =>
      match j.getField "linkedPulseIds" with
      | some (.arr elems) => elems.map elemLinkedPulseId
      | _ => []

structure ColumnValueEntry where
  id : String
  value : Option RawJson
  type : String

structure MainItemRelations where
  id : String
  name : String
  column_values : List ColumnValueEntry

structure MainItemsQueryResponse where
  items : List MainItemRelations

/-- Post-processing of `getMainItemLinkedIds` on a successful query
response: `result.items[0]`, find the main→feature relation column,
null-check its value, and parse it (inline copy of the
`parseLinkedItemIds` logic, as in the source). -/
def extractMainItemLinkedIds (mainToFeatureCol : String)
    (resp : MainItemsQueryResponse) : List Int :=
  match resp.items.head? with
  | none => []
  | some mainItem =>
      match mainItem.column_values.find? (fun col => col.id = mainToFeatureCol) with
      | none => []
      | some relationColumn =>
          match relationColumn.value with
          | none => []
          | some .malformed => []
          | some (.val j) =>
              match j.getField "linkedPulseIds" with
              | some (.arr elems) => elems.map elemLinkedPulseId
              | _ => []

/-- `getMainItemLinkedIds`: the query either throws (retries exhausted in
`mondayQuery`) or yields a response post-processed by
`extractMainItemLinkedIds`. -/
def getMainItemLinkedIds (mainToFeatureCol : String)
    (fetched : Except Err MainItemsQueryResponse) : Except Err (List Int) :=
  match fetched with
  | .error e => .error e
  | .ok resp => .ok (extractMainItemLinkedIds mainToFeatureCol resp)

/-! ## Webhook event payloads (handler input types) -/

structure PulseRef where
  linkedPulseId : Int
deriving DecidableEq

structure EventValue where
  linkedPulseIds : Option (List PulseRef)
deriving DecidableEq

/-- The fields of `payload.event` the handler reads.  `pulseId`, `boardId`
and `columnId` are required in both event shapes; the subitem/parent fields
are the optional Shape‑B extras. -/
structure EventData where
  boardId : Int
  pulseId : Int
  subitemId : Option Int
  parentItemId : Option Int
  parentItemBoardId : Option Int
  columnId : String
  value : Option EventValue
deriving DecidableEq

inductive WebhookPayload where
  | challenge (token : String)
  | event (e : EventData)
deriving DecidableEq

/-- `event.value?.linkedPulseIds?.map(p => p.linkedPulseId) || []`. -/
def linkedMainItemIds (e : EventData) : List Int :=
  match e.value with
  | some v =>
      match v.linkedPulseIds with
      | some refs => refs.map (fun p => p.linkedPulseId)
      | none => []
  | none => []

/-! ## Remote access oracles and the remote-call trace -/

/-- What `getSubitemWithParent` yields: the handler reads only
`parent_item` (with its `id` and `board.id`, numeric strings parsed with
`parseInt`, modelled as the integers themselves). -/
structure ParentItem where
  id : Int
  boardId : Int
deriving DecidableEq

structure SubitemWithParent where
  parent_item : Option ParentItem
deriving DecidableEq

/-- Oracles for the three logical remote operations, each already wrapped
in the retry layer: `.error` is a call whose retries were exhausted;
`fetchSubitem` yielding `.ok none` is an empty `items` list
(`result.items[0] || null`). -/
structure RemoteEnv where
  fetchSubitem : Int → Except Err (Option SubitemWithParent)
  readMainLinks : Int → Except Err (List Int)
  writeMainLinks : Int → Int → List Int → Except Err Unit

/-- One remote call as recorded in the handler's trace. -/
inductive RemoteOp where
  | fetchSubitem (subitemId : Int)
  | readMainLinks (mainItemId : Int)
  | writeMainLinks (mainItemId : Int) (boardId : Int) (linkedItemIds : List Int)
deriving DecidableEq

/-! ## The reconciliation loop -/

/-- `[...new Set(l)]`: JS `Set` insertion-order deduplication — insert each
element in turn, skipping those already seen, and spread in insertion
order (the first occurrence of each element survives). -/
def jsSetDedup (l : List Int) : List Int := go [] l
where
  go (seen : List Int) : List Int → List Int
  | [] => []
  | x :: xs => if seen.contains x then go seen xs else x :: go (seen ++ [x]) xs

inductive ItemOutcome where
  | updated
  | skipped
  | failed
deriving DecidableEq

/-- One iteration of the handler's `for (const mainItemId of ...)` loop:
read the main item's linked ids, skip when the parent is already linked,
else merge–dedupe and write (suppressed in dry-run mode); a read or write
exception is caught and yields `.failed` without escaping. -/
def processMainItem (cfg : Config) (env : RemoteEnv) (parentId mainItemId : Int) :
    List RemoteOp × ItemOutcome :=
  match env.readMainLinks mainItemId with
  | .error _ => ([RemoteOp.readMainLinks mainItemId], .failed)
  | .ok existingLinkedIds =>
      if existingLinkedIds.contains parentId then
        ([RemoteOp.readMainLinks mainItemId], .skipped)
      else
        let mergedLinkedIds := jsSetDedup (existingLinkedIds ++ [parentId])
        if cfg.dryRun then
          ([RemoteOp.readMainLinks mainItemId], .updated)
        else
          match env.writeMainLinks mainItemId cfg.boards.main mergedLinkedIds with
          | .ok _ =>
              ([RemoteOp.readMainLinks mainItemId,
                RemoteOp.writeMainLinks mainItemId cfg.boards.main mergedLinkedIds],
               .updated)
          | .error _ =>
              ([RemoteOp.readMainLinks mainItemId,
                RemoteOp.writeMainLinks mainItemId cfg.boards.main mergedLinkedIds],
               .failed)

/-- The whole loop: remote-call trace plus the `(updatedCount, skippedCount)`
accumulators. -/
def processItems (cfg : Config) (env : RemoteEnv) (parentId : Int) :
    List Int → List RemoteOp × Nat × Nat
  | [] => ([], 0, 0)
  | mainItemId :: rest =>
      let step := processMainItem cfg env parentId mainItemId
      let acc := processItems cfg env parentId rest
      (step.1 ++ acc.1,
       (if step.2 = ItemOutcome.updated then 1 else 0) + acc.2.1,
       (if step.2 = ItemOutcome.skipped then 1 else 0) + acc.2.2)

/-! ## Parent resolution and the handler -/

/-- The parent-resolution fallback chain: the directly fetched
`subitem.parent_item` first; else the event's nested
`parentItemId`/`parentItemBoardId` pair when both are truthy; else the
top-level `pulseId`/`boardId` when both are truthy; else no parent info. -/
def resolveParent (e : EventData) (subitem : SubitemWithParent) :
    Option (Int × Int) :=
  match subitem.parent_item with
  | some p => some (p.id, p.boardId)
  | none =>
      if truthyNum e.parentItemId && truthyNum e.parentItemBoardId then
        some ((e.parentItemId.getD 0, e.parentItemBoardId.getD 0))
      else if e.pulseId != 0 && e.boardId != 0 then
        some ((e.pulseId, e.boardId))
      else
        none

/-- The handler's return record `{ challenge?, success?, message?, dryRun? }`;
absent fields are `none`. -/
structure HandlerOutcome where
  challenge : Option String := none
  success : Option Bool := none
  message : Option String := none
  dryRun : Option Bool := none
deriving DecidableEq

/-- `handleWebhookEvent`: challenge echo; board and column scope checks;
empty-linked-list no-op; subitem fetch (an exhausted-retries error
propagates uncaught, hence the `Except` result); parent resolution and
parent-board validation; then the per-item reconciliation loop and the
count summary.  The first component is the trace of remote calls made. -/
def handleWebhookEvent (cfg : Config) (env : RemoteEnv) (payload : WebhookPayload) :
    List RemoteOp × Except Err HandlerOutcome :=
  match payload with
  | .challenge token => ([], .ok { challenge := some token })
  | .event e =>
      let subitemId := jsOrNum e.subitemId e.pulseId
      if e.boardId != cfg.boards.subitem && e.boardId != cfg.boards.feature then
        ([], .ok { success := some false, message := some "Event from unexpected board" })
      else if e.columnId != cfg.columns.subitemToMain then
        ([], .ok { success := some false, message := some "Event for non-target column" })
      else if (linkedMainItemIds e).length = 0 then
        ([], .ok { success := some true, message := some "No linked items to process" })
      else
        match env.fetchSubitem subitemId with
        | .error err => ([RemoteOp.fetchSubitem subitemId], .error err)
        | .ok none =>
            ([RemoteOp.fetchSubitem subitemId],
             .ok { success := some false, message := some "Failed to fetch subitem" })
        | .ok (some subitem) =>
            match resolveParent e subitem with
            | none =>
                ([RemoteOp.fetchSubitem subitemId],
                 .ok { success := some false, message := some "Subitem has no parent item" })
            | some (parentId, parentBoardId) =>
                if parentBoardId != cfg.boards.feature then
                  ([RemoteOp.fetchSubitem subitemId],
                   .ok { success := some false,
                         message := some "Parent item not from expected Feature board" })
                else
                  let r := processItems cfg env parentId (linkedMainItemIds e)
                  (RemoteOp.fetchSubitem subitemId :: r.1,
                   .ok { success := some true,
                         message := some ("Updated " ++ toString r.2.1 ++
                           " main items, skipped " ++ toString r.2.2),
                         dryRun := some cfg.dryRun })

/-! ## Helper lemmas -/

theorem mem_jsSetDedup_go (a : Int) (l : List Int) :
    ∀ seen : List Int, a ∈ jsSetDedup.go seen l ↔ (a ∈ l ∧ a ∉ seen) := by
  induction l with
  | nil => intro seen; simp [jsSetDedup.go]
  | cons x xs ih =>
      intro seen
      by_cases hxs : x ∈ seen
      · have hgo : jsSetDedup.go seen (x :: xs) = jsSetDedup.go seen xs := by
          simp [jsSetDedup.go, hxs]
        rw [hgo, ih seen]
        simp only [List.mem_cons]
        constructor
        · rintro ⟨hm, hns⟩; exact ⟨Or.inr hm, hns⟩
        · rintro ⟨hax | hm, hns⟩
          · exact absurd (hax ▸ hxs) hns
          · exact ⟨hm, hns⟩
      · have hgo : jsSetDedup.go seen (x :: xs) = x :: jsSetDedup.go (seen ++ [x]) xs := by
          simp [jsSetDedup.go, hxs]
        rw [hgo]
        simp only [List.mem_cons, ih (seen ++ [x]), List.mem_append, List.mem_singleton]
        by_cases hax : a = x
        · subst hax; simp [hxs]
        · simp [hax]

theorem mem_jsSetDedup (a : Int) (l : List Int) : a ∈ jsSetDedup l ↔ a ∈ l := by
  simp [jsSetDedup, mem_jsSetDedup_go]

theorem nodup_jsSetDedup_go (l : List Int) :
    ∀ seen : List Int, (jsSetDedup.go seen l).Nodup := by
  induction l with
  | nil => intro seen; simp [jsSetDedup.go]
  | cons x xs ih =>
      intro seen
      by_cases hx : seen.contains x
      · have hxs : x ∈ seen := by simpa using hx
        simpa [jsSetDedup.go, hxs] using ih seen
      · have hxs : x ∉ seen := by simpa using hx
        rw [show jsSetDedup.go seen (x :: xs) = x :: jsSetDedup.go (seen ++ [x]) xs by
          simp [jsSetDedup.go, hxs]]
        refine List.nodup_cons.mpr ⟨?_, ?_⟩
        · intro hmem
          rw [mem_jsSetDedup_go] at hmem
          exact hmem.2 (by simp)
        · exact ih (seen ++ [x])

theorem nodup_jsSetDedup (l : List Int) : (jsSetDedup l).Nodup :=
  nodup_jsSetDedup_go l []

theorem processItems_cons (cfg : Config) (env : RemoteEnv) (p m : Int)
    (rest : List Int) :
    processItems cfg env p (m :: rest) =
      ((processMainItem cfg env p m).1 ++ (processItems cfg env p rest).1,
       (if (processMainItem cfg env p m).2 = ItemOutcome.updated then 1 else 0) +
         (processItems cfg env p rest).2.1,
       (if (processMainItem cfg env p m).2 = ItemOutcome.skipped then 1 else 0) +
         (processItems cfg env p rest).2.2) := rfl

theorem processItems_append (cfg : Config) (env : RemoteEnv) (p : Int)
    (l1 l2 : List Int) :
    processItems cfg env p (l1 ++ l2) =
      ((processItems cfg env p l1).1 ++ (processItems cfg env p l2).1,
       (processItems cfg env p l1).2.1 + (processItems cfg env p l2).2.1,
       (processItems cfg env p l1).2.2 + (processItems cfg env p l2).2.2) := by
  induction l1 with
  | nil => simp [processItems]
  | cons m rest ih =>
      simp [processItems_cons, ih, List.append_assoc, Nat.add_assoc]

theorem processMainItem_skipped_of_mem (cfg : Config) (env : RemoteEnv)
    (parentId mainItemId : Int) (s : List Int)
    (hread : env.readMainLinks mainItemId = .ok s) (hmem : parentId ∈ s) :
    processMainItem cfg env parentId mainItemId =
      ([RemoteOp.readMainLinks mainItemId], ItemOutcome.skipped) := by
  simp [processMainItem, hread, hmem]

theorem handleWebhookEvent_run (cfg : Config) (env : RemoteEnv) (e : EventData)
    (subitem : SubitemWithParent) (parentId parentBoardId : Int)
    (hboard : e.boardId = cfg.boards.subitem ∨ e.boardId = cfg.boards.feature)
    (hcol : e.columnId = cfg.columns.subitemToMain)
    (hne : linkedMainItemIds e ≠ [])
    (hfetch : env.fetchSubitem (jsOrNum e.subitemId e.pulseId) = .ok (some subitem))
    (hres : resolveParent e subitem = some (parentId, parentBoardId)) :
    handleWebhookEvent cfg env (.event e) =
      if parentBoardId != cfg.boards.feature then
        ([RemoteOp.fetchSubitem (jsOrNum e.subitemId e.pulseId)],
         .ok { success := some false,
               message := some "Parent item not from expected Feature board" })
      else
        (RemoteOp.fetchSubitem (jsOrNum e.subitemId e.pulseId)
           :: (processItems cfg env parentId (linkedMainItemIds e)).1,
         .ok { success := some true,
               message := some ("Updated " ++
                 toString (processItems cfg env parentId (linkedMainItemIds e)).2.1 ++
                 " main items, skipped " ++
                 toString (processItems cfg env parentId (linkedMainItemIds e)).2.2),
               dryRun := some cfg.dryRun }) := by
  have h1 : (e.boardId != cfg.boards.subitem && e.boardId != cfg.boards.feature) = false := by
    rcases hboard with h | h <;> simp [h]
  have h2 : (e.columnId != cfg.columns.subitemToMain) = false := by simp [hcol]
  have h3 : ¬((linkedMainItemIds e).length = 0) := by simpa using hne
  simp only [handleWebhookEvent, h1, h2, Bool.false_eq_true, if_false, if_neg h3,
    hfetch, hres]

theorem retryFrom_step_ok {T : Type} (op : Nat → AttemptOutcome T)
    (attempt remaining : Nat) (lastError : Option Err) (v : T)
    (h : attemptResult (op attempt) = .ok v) :
    retryFrom op attempt (remaining + 1) lastError = (.ok v, attempt) := by
  simp [retryFrom, h]

theorem retryFrom_step_error {T : Type} (op : Nat → AttemptOutcome T)
    (attempt remaining : Nat) (lastError : Option Err) (e : Err)
    (h : attemptResult (op attempt) = .error e) :
    retryFrom op attempt (remaining + 1) lastError =
      retryFrom op (attempt + 1) remaining (some e) := by
  simp [retryFrom, h]

theorem retryFrom_exhausted {T : Type} (op : Nat → AttemptOutcome T)
    (attempt : Nat) (e : Err) :
    retryFrom op attempt 0 (some e) = (.error e, attempt - 1) := by
  simp [retryFrom]

/-! ## Concrete fixtures (for counterexamples and witness instantiations) -/

/-- Environment whose oracles are never expected to be consulted. -/
def unusedEnv : RemoteEnv where
  fetchSubitem := fun _ => .error "not called"
  readMainLinks := fun _ => .error "not called"
  writeMainLinks := fun _ _ _ => .error "not called"

/-- An event from board 999 — neither the subitem nor the feature board. -/
def wrongBoardEvent : EventData where
  boardId := 999
  pulseId := 7
  subitemId := none
  parentItemId := none
  parentItemBoardId := none
  columnId := "board_relation_mkw4vrjt"
  value := none

/-- An in-scope-board event for a different (status) column. -/
def wrongColumnEvent : EventData where
  boardId := 18041802160
  pulseId := 7
  subitemId := none
  parentItemId := none
  parentItemBoardId := none
  columnId := "status_col"
  value := none

/-- An in-scope event whose relation value lists no linked main items. -/
def emptyLinksEvent : EventData where
  boardId := 18041802160
  pulseId := 7
  subitemId := some 5
  parentItemId := none
  parentItemBoardId := none
  columnId := "board_relation_mkw4vrjt"
  value := some { linkedPulseIds := some [] }

/-- An in-scope event linking main items 101 and 102. -/
def twoItemEvent : EventData where
  boardId := 18041802160
  pulseId := 7
  subitemId := some 5
  parentItemId := none
  parentItemBoardId := none
  columnId := "board_relation_mkw4vrjt"
  value := some { linkedPulseIds := some [{ linkedPulseId := 101 }, { linkedPulseId := 102 }] }

/-- A subitem whose directly fetched parent is item 5550 on the feature board. -/
def featureParentSubitem : SubitemWithParent where
  parent_item := some { id := 5550, boardId := 18041801957 }

/-- Environment: parent 5550 on the feature board; every main item already
links 5550. -/
def consistentEnv : RemoteEnv where
  fetchSubitem := fun _ => .ok (some featureParentSubitem)
  readMainLinks := fun _ => .ok [5550, 7]
  writeMainLinks := fun _ _ _ => .error "no write expected"

/-- Environment: main items currently link `[3, 1, 3]` (duplicated, unordered)
and accept writes. -/
def mergeEnv : RemoteEnv where
  fetchSubitem := fun _ => .ok (some featureParentSubitem)
  readMainLinks := fun _ => .ok [3, 1, 3]
  writeMainLinks := fun _ _ _ => .ok ()

/-! ## Claims -/

/-- C1 (counterexample): an event from an unexpected board — a scope
rejection — is returned with `success = some false`, so the returned success
flag does mark the out-of-scope no-op as a failure, contrary to the claim. -/
theorem scopeRejection_wrong_board_flags_failure :
    (handleWebhookEvent (sourceConfig false) unusedEnv (.event wrongBoardEvent)).2 =
      .ok { challenge := none, success := some false,
            message := some "Event from unexpected board", dryRun := none } := by
  rfl

/-- C1 (amended): every scope rejection returns a structured outcome without
throwing and without remote calls, but only the empty-linked-list and
already-consistent cases carry `success = some true`; the wrong-board and
wrong-column rejections carry `success = some false` with a descriptive
message. -/
theorem scopeRejection_structured_outcomes :
    (∀ (cfg : Config) (env : RemoteEnv) (e : EventData),
        e.boardId ≠ cfg.boards.subitem → e.boardId ≠ cfg.boards.feature →
        handleWebhookEvent cfg env (.event e) =
          ([], .ok { success := some false, message := some "Event from unexpected board" }))
    ∧ (∀ (cfg : Config) (env : RemoteEnv) (e : EventData),
        (e.boardId = cfg.boards.subitem ∨ e.boardId = cfg.boards.feature) →
        e.columnId ≠ cfg.columns.subitemToMain →
        handleWebhookEvent cfg env (.event e) =
          ([], .ok { success := some false, message := some "Event for non-target column" }))
    ∧ (∀ (cfg : Config) (env : RemoteEnv) (e : EventData),
        (e.boardId = cfg.boards.subitem ∨ e.boardId = cfg.boards.feature) →
        e.columnId = cfg.columns.subitemToMain → linkedMainItemIds e = [] →
        handleWebhookEvent cfg env (.event e) =
          ([], .ok { success := some true, message := some "No linked items to process" }))
    ∧ (∀ (cfg : Config) (env : RemoteEnv) (parentId mainItemId : Int) (s : List Int),
        env.readMainLinks mainItemId = .ok s → parentId ∈ s →
        processMainItem cfg env parentId mainItemId =
          ([RemoteOp.readMainLinks mainItemId], ItemOutcome.skipped)) := by
  refine ⟨?_, ?_, ?_, ?_⟩
  · intro cfg env e hb1 hb2
    simp [handleWebhookEvent, hb1, hb2]
  · intro cfg env e hboard hcol
    have h1 : (e.boardId != cfg.boards.subitem && e.boardId != cfg.boards.feature) = false := by
      rcases hboard with h | h <;> simp [h]
    simp [handleWebhookEvent, h1, hcol]
  · intro cfg env e hboard hcol hlinks
    have h1 : (e.boardId != cfg.boards.subitem && e.boardId != cfg.boards.feature) = false := by
      rcases hboard with h | h <;> simp [h]
    simp [handleWebhookEvent, h1, hcol, hlinks]
  · intro cfg env parentId mainItemId s hread hmem
    exact processMainItem_skipped_of_mem cfg env parentId mainItemId s hread hmem

/-- C1 (witness): the amended statement at concrete inputs. -/
theorem scopeRejection_structured_outcomes_check :
    handleWebhookEvent (sourceConfig false) unusedEnv (.event wrongBoardEvent) =
      ([], .ok { success := some false, message := some "Event from unexpected board" }) ∧
    handleWebhookEvent (sourceConfig false) unusedEnv (.event wrongColumnEvent) =
      ([], .ok { success := some false, message := some "Event for non-target column" }) ∧
    handleWebhookEvent (sourceConfig false) unusedEnv (.event emptyLinksEvent) =
      ([], .ok { success := some true, message := some "No linked items to process" }) ∧
    processMainItem (sourceConfig false) consistentEnv 5550 101 =
      ([RemoteOp.readMainLinks 101], ItemOutcome.skipped) :=
  ⟨scopeRejection_structured_outcomes.1 (sourceConfig false) unusedEnv wrongBoardEvent
      (by decide) (by decide),
   scopeRejection_structured_outcomes.2.1 (sourceConfig false) unusedEnv wrongColumnEvent
      (Or.inl (by decide)) (by decide),
   scopeRejection_structured_outcomes.2.2.1 (sourceConfig false) unusedEnv emptyLinksEvent
      (Or.inl (by decide)) (by decide) (by decide),
   scopeRejection_structured_outcomes.2.2.2 (sourceConfig false) consistentEnv 5550 101
      [5550, 7] rfl (by decide)⟩

/-- C2: an event rejected for a wrong board, a wrong column, or an empty
linked-main-items list makes zero remote calls — the trace is empty. -/
theorem early_rejection_makes_no_remote_calls (cfg : Config) (env : RemoteEnv)
    (e : EventData)
    (h : (e.boardId ≠ cfg.boards.subitem ∧ e.boardId ≠ cfg.boards.feature)
        ∨ e.columnId ≠ cfg.columns.subitemToMain
        ∨ linkedMainItemIds e = []) :
    (handleWebhookEvent cfg env (.event e)).1 = [] := by
  by_cases h1 : (e.boardId != cfg.boards.subitem && e.boardId != cfg.boards.feature) = true
  · simp [handleWebhookEvent, h1]
  · by_cases h2 : (e.columnId != cfg.columns.subitemToMain) = true
    · simp [handleWebhookEvent, h1, h2]
    · rcases h with ⟨hb1, hb2⟩ | hc | hl
      · exact absurd (by simp [hb1, hb2]) h1
      · exact absurd (by simp [hc]) h2
      · simp [handleWebhookEvent, h1, h2, hl]

/-- C2 (witness): the wrong-column event at concrete inputs. -/
theorem early_rejection_makes_no_remote_calls_check :
    (handleWebhookEvent (sourceConfig false) unusedEnv (.event wrongColumnEvent)).1 = [] :=
  early_rejection_makes_no_remote_calls (sourceConfig false) unusedEnv wrongColumnEvent
    (Or.inr (Or.inl (by decide)))

/-- C3: an already-consistent main item (the fetched relation set contains
the parent id) is skipped without a write in any mode, and a whole batch of
already-consistent items is an idempotent no-op: only reads in the trace,
updated count 0, skipped count the batch size. -/
theorem already_linked_is_skipped_noop :
    (∀ (cfg : Config) (env : RemoteEnv) (parentId mainItemId : Int) (s : List Int),
        env.readMainLinks mainItemId = .ok s → parentId ∈ s →
        processMainItem cfg env parentId mainItemId =
          ([RemoteOp.readMainLinks mainItemId], ItemOutcome.skipped))
    ∧ (∀ (cfg : Config) (env : RemoteEnv) (parentId : Int) (ids : List Int),
        (∀ m ∈ ids, ∃ s, env.readMainLinks m = .ok s ∧ parentId ∈ s) →
        processItems cfg env parentId ids =
          (ids.map RemoteOp.readMainLinks, 0, ids.length)) := by
  refine ⟨processMainItem_skipped_of_mem, ?_⟩
  intro cfg env parentId ids hall
  induction ids with
  | nil => simp [processItems]
  | cons m rest ih =>
      obtain ⟨s, hread, hmem⟩ := hall m (by simp)
      have hstep := processMainItem_skipped_of_mem cfg env parentId m s hread hmem
      have hrest := ih (fun m2 hm2 => hall m2 (by simp [hm2]))
      simp [processItems_cons, hstep, hrest, Nat.add_comm]

/-- C3 (witness): a two-item already-consistent batch at concrete inputs. -/
theorem already_linked_is_skipped_noop_check :
    processMainItem (sourceConfig true) consistentEnv 5550 101 =
      ([RemoteOp.readMainLinks 101], ItemOutcome.skipped) ∧
    processItems (sourceConfig false) consistentEnv 5550 [101, 102] =
      ([101, 102].map RemoteOp.readMainLinks, 0, [101, 102].length) :=
  ⟨already_linked_is_skipped_noop.1 (sourceConfig true) consistentEnv 5550 101
      [5550, 7] rfl (by decide),
   already_linked_is_skipped_noop.2 (sourceConfig false) consistentEnv 5550 [101, 102]
      (fun m _ => ⟨[5550, 7], rfl, by decide⟩)⟩

/-- C4: when the parent id `c` is not among the existing linked ids `s`,
the write payload issued by the loop is `jsSetDedup (s ++ [c])`, which as a
set is exactly `s ∪ {c}` and has no duplicates — whatever order or
duplication `s` has. -/
theorem merge_payload_is_set_union (cfg : Config) (env : RemoteEnv)
    (mainItemId : Int) (s : List Int) (c : Int)
    (hread : env.readMainLinks mainItemId = .ok s) (hnot : c ∉ s)
    (hdry : cfg.dryRun = false) :
    (processMainItem cfg env c mainItemId).1 =
      [RemoteOp.readMainLinks mainItemId,
       RemoteOp.writeMainLinks mainItemId cfg.boards.main (jsSetDedup (s ++ [c]))] ∧
    (∀ a, a ∈ jsSetDedup (s ++ [c]) ↔ (a ∈ s ∨ a = c)) ∧
    (jsSetDedup (s ++ [c])).Nodup := by
  refine ⟨?_, ?_, nodup_jsSetDedup _⟩
  · cases hw : env.writeMainLinks mainItemId cfg.boards.main (jsSetDedup (s ++ [c])) with
    | ok u => simp [processMainItem, hread, hnot, hdry, hw]
    | error err => simp [processMainItem, hread, hnot, hdry, hw]
  · intro a
    rw [mem_jsSetDedup]
    simp

/-- C4 (witness): existing list `[3, 1, 3]` (duplicate, unordered) and new
parent id 2 at concrete inputs. -/
theorem merge_payload_is_set_union_check :
    (processMainItem (sourceConfig false) mergeEnv 2 101).1 =
      [RemoteOp.readMainLinks 101,
       RemoteOp.writeMainLinks 101 (sourceConfig false).boards.main
         (jsSetDedup ([3, 1, 3] ++ [2]))] ∧
    (∀ a, a ∈ jsSetDedup ([3, 1, 3] ++ [2]) ↔ (a ∈ [3, 1, 3] ∨ a = 2)) ∧
    (jsSetDedup ([3, 1, 3] ++ [2])).Nodup :=
  merge_payload_is_set_union (sourceConfig false) mergeEnv 101 [3, 1, 3] 2
    rfl (by decide) rfl

/-- C5: with the configured maximum of 3 attempts, a call whose first two
attempts fail and whose third succeeds makes exactly 3 attempts and returns
the success; a call failing on every attempt makes exactly 3 attempts and
the error surfaced is the final attempt's. -/
theorem mondayQuery_retry_semantics :
    (∀ (T : Type) (op : Nat → AttemptOutcome T) (e1 e2 : Err) (v : T),
        attemptResult (op 1) = .error e1 → attemptResult (op 2) = .error e2 →
        attemptResult (op 3) = .ok v →
        mondayQuery (sourceConfig false).retry.maxAttempts op = (.ok v, 3))
    ∧ (∀ (T : Type) (op : Nat → AttemptOutcome T) (e1 e2 e3 : Err),
        attemptResult (op 1) = .error e1 → attemptResult (op 2) = .error e2 →
        attemptResult (op 3) = .error e3 →
        mondayQuery (sourceConfig false).retry.maxAttempts op = (.error e3, 3)) := by
  constructor
  · intro T op e1 e2 v h1 h2 h3
    calc mondayQuery (sourceConfig false).retry.maxAttempts op
        = retryFrom op 1 (2 + 1) none := rfl
      _ = retryFrom op 2 (1 + 1) (some e1) := retryFrom_step_error op 1 2 none e1 h1
      _ = retryFrom op 3 (0 + 1) (some e2) := retryFrom_step_error op 2 1 (some e1) e2 h2
      _ = (.ok v, 3) := retryFrom_step_ok op 3 0 (some e2) v h3
  · intro T op e1 e2 e3 h1 h2 h3
    calc mondayQuery (sourceConfig false).retry.maxAttempts op
        = retryFrom op 1 (2 + 1) none := rfl
      _ = retryFrom op 2 (1 + 1) (some e1) := retryFrom_step_error op 1 2 none e1 h1
      _ = retryFrom op 3 (0 + 1) (some e2) := retryFrom_step_error op 2 1 (some e1) e2 h2
      _ = retryFrom op 4 0 (some e3) := retryFrom_step_error op 3 0 (some e2) e3 h3
      _ = (.error e3, 3) := retryFrom_exhausted op 4 e3

/-- Attempt oracle: transport failure on attempts 1 and 2, then a proper
payload. -/
def failTwiceOp : Nat → AttemptOutcome Nat := fun n =>
  if n ≤ 2 then AttemptOutcome.transportError "ECONNRESET"
  else AttemptOutcome.response { data := some 42, errors := none }

/-- Attempt oracle: every attempt gets a non-success transport status. -/
def alwaysFailOp : Nat → AttemptOutcome Nat := fun _ =>
  AttemptOutcome.httpError 500 "Internal Server Error"

/-- C5 (witness): both retry scenarios at concrete oracles. -/
theorem mondayQuery_retry_semantics_check :
    mondayQuery (sourceConfig false).retry.maxAttempts failTwiceOp = (.ok 42, 3) ∧
    mondayQuery (sourceConfig false).retry.maxAttempts alwaysFailOp =
      (.error "HTTP 500: Internal Server Error", 3) :=
  ⟨mondayQuery_retry_semantics.1 Nat failTwiceOp "ECONNRESET" "ECONNRESET" 42 rfl rfl rfl,
   mondayQuery_retry_semantics.2 Nat alwaysFailOp "HTTP 500: Internal Server Error"
     "HTTP 500: Internal Server Error" "HTTP 500: Internal Server Error" rfl rfl rfl⟩

/-- C6: once normalization and parent-board validation have passed, one
target main item whose reconciliation fails (read or write, after retries)
does not abort the rest: the other items' remote calls are still in the
trace, the event outcome still reports success, and the counts sum only the
completed items. -/
theorem per_item_failure_is_isolated (cfg : Config) (env : RemoteEnv) (e : EventData)
    (subitem : SubitemWithParent) (parentId : Int) (pre post : List Int) (m : Int)
    (hboard : e.boardId = cfg.boards.subitem ∨ e.boardId = cfg.boards.feature)
    (hcol : e.columnId = cfg.columns.subitemToMain)
    (hsplit : linkedMainItemIds e = pre ++ m :: post)
    (hfetch : env.fetchSubitem (jsOrNum e.subitemId e.pulseId) = .ok (some subitem))
    (hres : resolveParent e subitem = some (parentId, cfg.boards.feature))
    (hfail : (processMainItem cfg env parentId m).2 = ItemOutcome.failed) :
    handleWebhookEvent cfg env (.event e) =
      (RemoteOp.fetchSubitem (jsOrNum e.subitemId e.pulseId) ::
         ((processItems cfg env parentId pre).1 ++ (processMainItem cfg env parentId m).1 ++
          (processItems cfg env parentId post).1),
       .ok { success := some true,
             message := some ("Updated " ++
               toString ((processItems cfg env parentId pre).2.1 +
                 (processItems cfg env parentId post).2.1) ++
               " main items, skipped " ++
               toString ((processItems cfg env parentId pre).2.2 +
                 (processItems cfg env parentId post).2.2)),
             dryRun := some cfg.dryRun }) := by
  have hne : linkedMainItemIds e ≠ [] := by simp [hsplit]
  rw [handleWebhookEvent_run cfg env e subitem parentId cfg.boards.feature
        hboard hcol hne hfetch hres,
      if_neg (by simp)]
  rw [hsplit, processItems_append cfg env parentId pre (m :: post), processItems_cons]
  simp [hfail, List.append_assoc]

/-- Environment for the partial-failure scenario: reading main item 101
fails after retries, any other main item reads as unlinked, writes succeed. -/
def partialEnv : RemoteEnv where
  fetchSubitem := fun _ => .ok (some featureParentSubitem)
  readMainLinks := fun m => if m = 101 then .error "retries exhausted" else .ok []
  writeMainLinks := fun _ _ _ => .ok ()

/-- C6 (witness): items 101 (read fails) and 102 (updated); the event still
reports success with one update, and 102's write is in the trace. -/
theorem per_item_failure_is_isolated_check :
    handleWebhookEvent (sourceConfig false) partialEnv (.event twoItemEvent) =
      ([RemoteOp.fetchSubitem 5, RemoteOp.readMainLinks 101, RemoteOp.readMainLinks 102,
        RemoteOp.writeMainLinks 102 18012438587 [5550]],
       .ok { success := some true, message := some "Updated 1 main items, skipped 0",
             dryRun := some false }) :=
  per_item_failure_is_isolated (sourceConfig false) partialEnv twoItemEvent
    featureParentSubitem 5550 [] [102] 101 (Or.inl rfl) rfl rfl rfl rfl rfl

/-- C7: a resolved parent whose board is not the configured feature board
rejects the whole event before the per-item loop: the outcome is a failed
event result with a descriptive reason and the trace holds only the subitem
fetch — no main-item reads or writes. -/
theorem parent_board_mismatch_rejects_event (cfg : Config) (env : RemoteEnv)
    (e : EventData) (subitem : SubitemWithParent) (parentId parentBoardId : Int)
    (hboard : e.boardId = cfg.boards.subitem ∨ e.boardId = cfg.boards.feature)
    (hcol : e.columnId = cfg.columns.subitemToMain)
    (hne : linkedMainItemIds e ≠ [])
    (hfetch : env.fetchSubitem (jsOrNum e.subitemId e.pulseId) = .ok (some subitem))
    (hres : resolveParent e subitem = some (parentId, parentBoardId))
    (hpb : parentBoardId ≠ cfg.boards.feature) :
    handleWebhookEvent cfg env (.event e) =
      ([RemoteOp.fetchSubitem (jsOrNum e.subitemId e.pulseId)],
       .ok { success := some false,
             message := some "Parent item not from expected Feature board" }) := by
  rw [handleWebhookEvent_run cfg env e subitem parentId parentBoardId
        hboard hcol hne hfetch hres,
      if_pos (by simp [hpb])]

/-- Environment whose subitem fetch yields a parent on board 777 (not the
feature board). -/
def wrongParentBoardEnv : RemoteEnv where
  fetchSubitem := fun _ => .ok (some { parent_item := some { id := 5550, boardId := 777 } })
  readMainLinks := fun _ => .error "not called"
  writeMainLinks := fun _ _ _ => .error "not called"

/-- C7 (witness): the wrong-parent-board scenario at concrete inputs. -/
theorem parent_board_mismatch_rejects_event_check :
    handleWebhookEvent (sourceConfig false) wrongParentBoardEnv (.event twoItemEvent) =
      ([RemoteOp.fetchSubitem 5],
       .ok { success := some false,
             message := some "Parent item not from expected Feature board" }) :=
  parent_board_mismatch_rejects_event (sourceConfig false) wrongParentBoardEnv
    twoItemEvent { parent_item := some { id := 5550, boardId := 777 } } 5550 777
    (Or.inl rfl) rfl (by decide) rfl rfl (by decide)

/-- A relation-column value the read path cannot use: SQL `null`,
unparseable JSON, or parsed JSON lacking a `linkedPulseIds` array. -/
def badRelationValue (cv : Option RawJson) : Prop :=
  cv = none ∨ cv = some RawJson.malformed ∨
    ∃ j, cv = some (RawJson.val j) ∧
      ∀ elems, j.getField "linkedPulseIds" ≠ some (Json.arr elems)

/-- The inline parse of `getMainItemLinkedIds` is the same logic as
`parseLinkedItemIds` applied to the found relation column's value. -/
theorem extractMainItemLinkedIds_eq_parse (col : String)
    (resp : MainItemsQueryResponse) :
    extractMainItemLinkedIds col resp =
      (match resp.items.head? with
       | none => []
       | some mainItem =>
           match mainItem.column_values.find? (fun c => c.id = col) with
           | none => []
           | some relationColumn => parseLinkedItemIds relationColumn.value) := rfl

/-- C8: the read path is fail-open: a null, unparseable, or wrongly-shaped
relation value parses to the empty list, both in `parseLinkedItemIds` and in
the inline parse of `getMainItemLinkedIds`.  Totality (no thrown error) is by
construction: both functions return a plain list, the source's `catch`
branch being the `[]` arms. -/
theorem relation_parse_fails_open_to_empty :
    (∀ cv, badRelationValue cv → parseLinkedItemIds cv = [])
    ∧ (∀ (col : String) (resp : MainItemsQueryResponse),
        (∀ item ∈ resp.items, ∀ c ∈ item.column_values, badRelationValue c.value) →
        extractMainItemLinkedIds col resp = []) := by
  have hparse : ∀ cv, badRelationValue cv → parseLinkedItemIds cv = [] := by
    intro cv hbad
    rcases hbad with rfl | rfl | ⟨j, rfl, hshape⟩
    · rfl
    · rfl
    · cases hg : j.getField "linkedPulseIds" with
      | none => simp [parseLinkedItemIds, hg]
      | some v =>
          cases v with
          | arr elems => exact absurd hg (hshape elems)
          | null => simp [parseLinkedItemIds, hg]
          | bool b => simp [parseLinkedItemIds, hg]
          | num n => simp [parseLinkedItemIds, hg]
          | str s => simp [parseLinkedItemIds, hg]
          | obj fields => simp [parseLinkedItemIds, hg]
  refine ⟨hparse, ?_⟩
  intro col resp hall
  rw [extractMainItemLinkedIds_eq_parse]
  cases hh : resp.items.head? with
  | none => rfl
  | some mainItem =>
      have hitem : mainItem ∈ resp.items := List.mem_of_mem_head? hh
      show (match mainItem.column_values.find? (fun c => c.id = col) with
            | none => ([] : List Int)
            | some relationColumn => parseLinkedItemIds relationColumn.value) = []
      cases hf : mainItem.column_values.find? (fun c => c.id = col) with
      | none => rfl
      | some relationColumn =>
          exact hparse relationColumn.value
            (hall mainItem hitem relationColumn (List.mem_of_find?_eq_some hf))

/-- A main item whose relation column holds JSON of the wrong shape. -/
def badShapeColumn : ColumnValueEntry where
  id := "board_relation_mkw8vvdh"
  value := some (RawJson.val (Json.str "oops"))
  type := "board_relation"

def badShapeResp : MainItemsQueryResponse where
  items := [{ id := "101", name := "Main", column_values := [badShapeColumn] }]

/-- C8 (witness): an unparseable value and a wrong-shape response at
concrete inputs. -/
theorem relation_parse_fails_open_to_empty_check :
    parseLinkedItemIds (some RawJson.malformed) = [] ∧
    extractMainItemLinkedIds "board_relation_mkw8vvdh" badShapeResp = [] := by
  refine ⟨relation_parse_fails_open_to_empty.1 (some RawJson.malformed)
            (Or.inr (Or.inl rfl)),
          relation_parse_fails_open_to_empty.2 "board_relation_mkw8vvdh" badShapeResp ?_⟩
  intro item hitem c hc
  simp only [badShapeResp, List.mem_singleton] at hitem
  subst hitem
  simp only [List.mem_singleton] at hc
  subst hc
  refine Or.inr (Or.inr ⟨Json.str "oops", rfl, ?_⟩)
  intro elems h
  simp [Json.getField] at h

/-- Event with `parentItemId` populated but `parentItemBoardId` missing —
a partially populated nested pair. -/
def partialNestedEvent : EventData where
  boardId := 18041801957
  pulseId := 7
  subitemId := some 5
  parentItemId := some 5550
  parentItemBoardId := none
  columnId := "board_relation_mkw4vrjt"
  value := some { linkedPulseIds := some [{ linkedPulseId := 101 }] }

/-- C9 (counterexample): with no directly-fetched parent and a partially
populated nested pair (`parentItemId` present, `parentItemBoardId` absent),
the parent is resolved from the top-level `pulseId`/`boardId` even though a
nested parent field is present — so the top-level fields are not used "only
when the nested fields are absent". -/
theorem resolveParent_partial_nested_fields :
    partialNestedEvent.parentItemId = some 5550 ∧
    resolveParent partialNestedEvent { parent_item := none } =
      some (partialNestedEvent.pulseId, partialNestedEvent.boardId) :=
  ⟨rfl, rfl⟩

/-- C9 (amended): the directly-queried parent always wins; the nested
`parentItemId`/`parentItemBoardId` pair is used exactly when there is no
direct parent and both nested fields are present and nonzero; the top-level
`pulseId`/`boardId` are used whenever there is no direct parent and the
nested pair is not both present-and-nonzero — including when the nested
fields are partially populated. -/
theorem resolveParent_priority_chain :
    (∀ (e : EventData) (si : SubitemWithParent) (p : ParentItem),
        si.parent_item = some p → resolveParent e si = some (p.id, p.boardId))
    ∧ (∀ (e : EventData) (si : SubitemWithParent),
        si.parent_item = none → truthyNum e.parentItemId = true →
        truthyNum e.parentItemBoardId = true →
        resolveParent e si = some (e.parentItemId.getD 0, e.parentItemBoardId.getD 0))
    ∧ (∀ (e : EventData) (si : SubitemWithParent),
        si.parent_item = none →
        ¬(truthyNum e.parentItemId = true ∧ truthyNum e.parentItemBoardId = true) →
        e.pulseId ≠ 0 → e.boardId ≠ 0 →
        resolveParent e si = some (e.pulseId, e.boardId)) := by
  refine ⟨?_, ?_, ?_⟩
  · intro e si p hp
    simp [resolveParent, hp]
  · intro e si hnone h1 h2
    simp [resolveParent, hnone, h1, h2]
  · intro e si hnone hnested hp hb
    have hcond : (truthyNum e.parentItemId && truthyNum e.parentItemBoardId) = false := by
      cases h1 : truthyNum e.parentItemId with
      | false => simp [h1]
      | true =>
          cases h2 : truthyNum e.parentItemBoardId with
          | false => simp [h1, h2]
          | true => exact absurd ⟨h1, h2⟩ hnested
    simp [resolveParent, hnone, hcond, hp, hb]

/-- Event whose nested parent pair is fully populated. -/
def nestedOnlyEvent : EventData where
  boardId := 18041801957
  pulseId := 7
  subitemId := some 5
  parentItemId := some 4444
  parentItemBoardId := some 18041801957
  columnId := "board_relation_mkw4vrjt"
  value := some { linkedPulseIds := some [{ linkedPulseId := 101 }] }

/-- C9 (witness): the three stages of the amended fallback chain at
concrete inputs. -/
theorem resolveParent_priority_chain_check :
    resolveParent twoItemEvent featureParentSubitem = some (5550, 18041801957) ∧
    resolveParent nestedOnlyEvent { parent_item := none } =
      some (4444, 18041801957) ∧
    resolveParent partialNestedEvent { parent_item := none } =
      some (7, 18041801957) :=
  ⟨resolveParent_priority_chain.1 twoItemEvent featureParentSubitem
     { id := 5550, boardId := 18041801957 } rfl,
   resolveParent_priority_chain.2.1 nestedOnlyEvent { parent_item := none }
     rfl rfl rfl,
   resolveParent_priority_chain.2.2 partialNestedEvent { parent_item := none }
     rfl (by decide) (by decide) (by decide)⟩

/-- C10: a successful fetch whose `items` list is empty reads as the empty
linked-id list — indistinguishable from an existing item with no links —
and the reconciliation loop then merges and writes `[parentId]` for that
item, recording it as updated rather than as a per-item failure. -/
theorem missing_main_item_reads_empty_and_writes :
    (∀ (col : String) (resp : MainItemsQueryResponse), resp.items = [] →
        extractMainItemLinkedIds col resp = [])
    ∧ (∀ (cfg : Config) (env : RemoteEnv) (parentId mainItemId : Int),
        cfg.dryRun = false →
        env.readMainLinks mainItemId = .ok [] →
        env.writeMainLinks mainItemId cfg.boards.main [parentId] = .ok () →
        processMainItem cfg env parentId mainItemId =
          ([RemoteOp.readMainLinks mainItemId,
            RemoteOp.writeMainLinks mainItemId cfg.boards.main [parentId]],
           ItemOutcome.updated)) := by
  constructor
  · intro col resp h
    rw [extractMainItemLinkedIds_eq_parse, h]
    rfl
  · intro cfg env parentId mainItemId hdry hread hw
    have hmerge : jsSetDedup [parentId] = [parentId] := by
      simp [jsSetDedup, jsSetDedup.go]
    simp [processMainItem, hread, hdry, hmerge, hw]

/-- Environment for the ghost-item scenario: every main-item read yields an
empty response, writes succeed. -/
def ghostItemEnv : RemoteEnv where
  fetchSubitem := fun _ => .ok (some featureParentSubitem)
  readMainLinks := fun _ => .ok []
  writeMainLinks := fun _ _ _ => .ok ()

def emptyItemsResp : MainItemsQueryResponse where
  items := []

/-- C10 (witness): the empty response and the resulting write at concrete
inputs. -/
theorem missing_main_item_reads_empty_and_writes_check :
    extractMainItemLinkedIds "board_relation_mkw8vvdh" emptyItemsResp = [] ∧
    processMainItem (sourceConfig false) ghostItemEnv 5550 101 =
      ([RemoteOp.readMainLinks 101,
        RemoteOp.writeMainLinks 101 (sourceConfig false).boards.main [5550]],
       ItemOutcome.updated) :=
  ⟨missing_main_item_reads_empty_and_writes.1 "board_relation_mkw8vvdh"
     emptyItemsResp rfl,
   missing_main_item_reads_empty_and_writes.2 (sourceConfig false) ghostItemEnv
     5550 101 rfl rfl rfl⟩

end MondayMcp
